import Mathlib

/-!
# Verification of the cybersecurity-assistant risk-scoring core

Shallow embedding of the decision/scoring core of the repository:

* `ai_agent/agent_decision.py` — `AgentDecision.route_and_decide`
* `ai_agent/url_analyzer.py`   — `UrlAnalyzer._request`, `UrlAnalyzer.scan_url`
* `ai_agent/password_checker.py` — `PasswordChecker.check_password`,
  `_entropy_bits`, `_hibp_k_anonymity`
* `ai_agent/text_detector.py`  — `TextDetector.analyze_text`
* `ai_agent/utils.py`          — `extract_urls`, `contains_phishing_keywords`,
  `simple_phish_score`

Python machine integers are modelled as `Int`/`Nat`; Python `float`
arithmetic is idealised as exact arithmetic (`Rat` where the code only
divides integers, `Real` where the code takes a base-2 logarithm).
Network I/O is modelled by passing the outcome of each outbound call
explicitly (environment records / outcome traces); exceptions are
modelled with `Except`.  The SHA-1 digest function is kept abstract (a
`String → String` parameter): no claim depends on the internals of the
hash, only on how its hex digest is used.
-/

namespace CyberSec

deriving instance DecidableEq for Except

/-- Python `round` (banker's rounding, round-half-to-even) on exact
rationals.  Used where the code calls `round(...)` on a float. -/
def pyRound (q : ℚ) : ℤ :=
  let n := ⌊q⌋
  let f := q - n
  if f < 1/2 then n
  else if 1/2 < f then n + 1
  else if 2 ∣ n then n else n + 1

/-- Decision actions produced by `AgentDecision.route_and_decide`. -/
inductive Action
  | alert
  | log
  | ignore
deriving DecidableEq, Repr

/-- Text labels produced by `TextDetector` (`"malicious"|"suspicious"|"benign"`). -/
inductive Label
  | malicious
  | suspicious
  | benign
deriving DecidableEq, Repr

/-- `agent_decision.py` line 19:
`action = "alert" if score >= 50 else ("log" if score >= 20 else "ignore")`. -/
def urlAction (score : ℤ) : Action :=
  if score ≥ 50 then .alert else if score ≥ 20 then .log else .ignore

/-- `agent_decision.py` line 33:
`action = "alert" if result.get("compromised") else ("log" if score > 60 else "ignore")`.
`compromised` is `True`/`False`/`None` in Python; only `True` is truthy. -/
def passwordAction (compromised : Option Bool) (score : ℤ) : Action :=
  if compromised = some true then .alert else if score > 60 then .log else .ignore

/-- `agent_decision.py` line 48:
`action = "alert" if score >= 60 or result.get("label") == "malicious" else ("log" if score >= 30 else "ignore")`. -/
def textAction (score : ℤ) (label : Label) : Action :=
  if score ≥ 60 ∨ label = .malicious then .alert
  else if score ≥ 30 then .log else .ignore

/-- `url_analyzer.py` lines 137–142: vote tallies to normalised risk score.
`total = total if total > 0 else 1`;
`risk = (malicious*1.0 + suspicious*0.5) / total`;
`risk_score = int(max(0, min(100, round(risk * 100))))`. -/
def urlRiskScore (m s h u : ℕ) : ℤ :=
  let total : ℤ := (m : ℤ) + s + h + u
  let total : ℤ := if total > 0 then total else 1
  let risk : ℚ := ((m : ℚ) * 1 + (s : ℚ) * (1/2)) / (total : ℚ)
  max 0 (min 100 (pyRound (risk * 100)))

/-- The spec's own wording of the URL risk formula (§4.1 step 4):
`round(100 * (malicious*1.0 + suspicious*0.5) / total_votes)` with
`total_votes = malicious+suspicious+harmless+undetected` floored at 1,
clamped to [0,100]. -/
def urlRiskSpec (m s h u : ℕ) : ℤ :=
  let totalVotes : ℤ := max ((m : ℤ) + s + h + u) 1
  max 0 (min 100 (pyRound (100 * ((m : ℚ) * 1 + (s : ℚ) * (1/2)) / (totalVotes : ℚ))))

theorem urlRiskScore_eq_spec (m s h u : ℕ) : urlRiskScore m s h u = urlRiskSpec m s h u := by
  simp only [urlRiskScore, urlRiskSpec]
  rcases Nat.eq_zero_or_pos (m + s + h + u) with h0 | hpos
  · obtain ⟨hm, hs, hh, hu⟩ : m = 0 ∧ s = 0 ∧ h = 0 ∧ u = 0 := by omega
    subst hm hs hh hu
    norm_num
  · have ht : ((m : ℤ) + s + h + u) > 0 := by exact_mod_cast hpos
    rw [if_pos ht]
    have hmax : ((m : ℤ) + s + h + u) ⊔ 1 = ((m : ℤ) + s + h + u) := max_eq_left (by omega)
    rw [hmax]
    congr 3
    rw [mul_comm]
    ring

/-! ## Text heuristics — `ai_agent/utils.py` and `ai_agent/text_detector.py` -/

/-- ASCII subset of Python whitespace (`str.strip()` / regex `\s`). -/
def pySpace (c : Char) : Bool :=
  c = ' ' || c = '\t' || c = '\n' || c = '\r' || c.toNat = 11 || c.toNat = 12

/-- `not text or not text.strip()` — empty or whitespace-only. -/
def pyBlank (text : String) : Bool := text.toList.all pySpace

/-- Case-insensitive literal match at the head of `cs` (`pat` given lowercase);
models the `re.IGNORECASE` flag on `URL_REGEX`. -/
def lowMatches (pat : List Char) (cs : List Char) : Bool :=
  match pat, cs with
  | [], _ => true
  | _ :: _, [] => false
  | p :: ps, c :: rest => p = c.toLower && lowMatches ps rest

/-- Length of the maximal run of non-whitespace characters (`[^\s]+`, greedy). -/
def nonspaceRun (cs : List Char) : ℕ := (cs.takeWhile (fun c => !pySpace c)).length

/-- First alternative of `URL_REGEX`, `(https?://[^\s]+)`: length of the match
at the head of `cs`, if any (backtracking `https?` = try `https://`, then
`http://`). -/
def tryHttp (cs : List Char) : Option ℕ :=
  if lowMatches "https://".toList cs then
    let k := nonspaceRun (cs.drop 8)
    if k > 0 then some (8 + k) else none
  else if lowMatches "http://".toList cs then
    let k := nonspaceRun (cs.drop 7)
    if k > 0 then some (7 + k) else none
  else none

/-- Second alternative of `URL_REGEX`, `(www\.[^\s]+)`. -/
def tryWww (cs : List Char) : Option ℕ :=
  if lowMatches "www.".toList cs then
    let k := nonspaceRun (cs.drop 4)
    if k > 0 then some (4 + k) else none
  else none

/-- `re.findall` scan of `URL_REGEX`: left-to-right, non-overlapping, first
alternative preferred.  Fuel = length of the text (each step consumes ≥ 1
character). -/
def scanUrls : ℕ → List Char → List (List Char)
  | 0, _ => []
  | _ + 1, [] => []
  | fuel + 1, c :: rest =>
    match tryHttp (c :: rest) with
    | some n => (c :: rest).take n :: scanUrls fuel ((c :: rest).drop n)
    | none =>
      match tryWww (c :: rest) with
      | some n => (c :: rest).take n :: scanUrls fuel ((c :: rest).drop n)
      | none => scanUrls fuel rest

/-- `utils.extract_urls`. -/
def extract_urls (text : String) : List String :=
  (scanUrls text.toList.length text.toList).map fun cs => String.mk cs

/-- Python substring containment `needle in hay` on character lists. -/
def containsSub (needle hay : List Char) : Bool :=
  match hay with
  | [] => needle.isEmpty
  | _ :: t => needle.isPrefixOf hay || containsSub needle t

/-- `utils.PHISHING_KEYWORDS` (fixed phrase list). -/
def PHISHING_KEYWORDS : List String :=
  ["verify your account", "click here", "login", "account suspended",
   "reset your password", "confirm your identity", "unauthorized",
   "update your payment", "billing problem", "security alert",
   "verify identity", "provide your credentials"]

/-- `utils.contains_phishing_keywords`: case-insensitive search, returns
(found flag, matched keyword list). -/
def contains_phishing_keywords (text : String) : Bool × List String :=
  if text = "" then (false, [])
  else
    let lowered := text.toList.map Char.toLower
    let matched := PHISHING_KEYWORDS.filter fun kw => containsSub kw.toList lowered
    (matched.length > 0, matched)

/-- The `suspicious_phrases` list local to `utils.simple_phish_score`. -/
def SUSPICIOUS_PHRASES : List String :=
  ["bank", "password", "ssn", "social security", "paypal", "western union"]

/-- `text.count("!")` (single-character count). -/
def countChar (c : Char) (text : String) : ℕ := text.toList.count c

/-- `utils.simple_phish_score`: heuristic risk score 0..100, translated
statement by statement (URL weight, keyword weight, exclamation weight,
suspicious-phrase weight, final clamp). -/
def simple_phish_score (text : String) : ℕ :=
  if text = "" then 0
  else
    let urls := extract_urls text
    let urlScore := if urls.length > 0 then min 40 (15 + 5 * (urls.length - 1)) else 0
    let kwScore := if (contains_phishing_keywords text).1 then 30 else 0
    let excl := countChar '!' text
    let exclScore := if excl > 0 then min 10 (excl * 2) else 0
    let lowered := text.toList.map Char.toLower
    let suspScore :=
      10 * (SUSPICIOUS_PHRASES.filter fun p => containsSub p.toList lowered).length
    max 0 (min 100 (urlScore + kwScore + exclScore + suspScore))

/-- `text_detector.py` lines 149–154: label thresholds on the heuristic score. -/
def fallbackLabel (heuristic : ℕ) : Label :=
  if heuristic ≥ 70 then .malicious else if heuristic ≥ 35 then .suspicious else .benign

/-- Findings record returned by `TextDetector.analyze_text`. -/
structure TextFindings where
  label : Label
  reason : String
  risk_score : ℤ
  urls : List String
  heuristic_score : ℤ
deriving DecidableEq, Repr

/-- A parsed OpenAI reply as produced by `TextDetector._call_openai`
(label already normalised, score already an int).  The primary path is
modelled by passing the call's outcome explicitly: `none` = OpenAI not
configured, `some (.error ())` = the call/parse raised, `some (.ok r)` =
parsed reply `r`. -/
structure OaiReply where
  label : Label
  reason : String
  risk_score : ℤ
deriving DecidableEq, Repr

/-- `TextDetector.analyze_text`.  The exact Python `repr` formatting of the
matched-keyword list inside `reason` is simplified to a comma-separated
join; no claim depends on the reason wording (§4.4: diagnostic only). -/
def analyze_text (primary : Option (Except Unit OaiReply)) (text : String) : TextFindings :=
  if pyBlank text then
    { label := .benign, reason := "empty input", risk_score := 0, urls := [], heuristic_score := 0 }
  else
    let urls := extract_urls text
    let heuristic := simple_phish_score text
    match primary with
    | some (.ok oa) =>
        { label := oa.label, reason := oa.reason,
          risk_score := max 0 (min 100 oa.risk_score),
          urls := urls, heuristic_score := (heuristic : ℤ) }
    | _ =>
        let fk := contains_phishing_keywords text
        let reasonParts :=
          (if urls.length > 0 then ["found_url(s): " ++ toString urls.length] else []) ++
          (if fk.1 then ["keywords: " ++ String.intercalate ", " fk.2] else [])
        let reason :=
          if reasonParts.isEmpty then "heuristic analysis"
          else String.intercalate "; " reasonParts
        { label := fallbackLabel heuristic, reason := reason,
          risk_score := (heuristic : ℤ), urls := urls,
          heuristic_score := (heuristic : ℤ) }

/-- The claim's wording of the heuristic score: clamp to [0,100] of the sum
of the four contributions (+15/+5… capped 40 for URLs, +30 flat for any
phishing keyword, +2 per exclamation capped 10, +10 per suspicious phrase,
uncapped). -/
def specHeuristicScore (text : String) : ℕ :=
  let n := (extract_urls text).length
  let urlContrib := if n = 0 then 0 else min (15 + 5 * (n - 1)) 40
  let kwContrib := if (contains_phishing_keywords text).1 then 30 else 0
  let exclContrib := min (2 * countChar '!' text) 10
  let sensContrib :=
    10 * (SUSPICIOUS_PHRASES.filter fun p =>
      containsSub p.toList (text.toList.map Char.toLower)).length
  min (urlContrib + kwContrib + exclContrib + sensContrib) 100

/-! ## Password checker — `ai_agent/password_checker.py`

Python `float` arithmetic (`math.log2`) is idealised over `ℝ`, so the
entropy-related definitions are `noncomputable`; everything not touching
entropy stays executable.  The SHA-1 digest is abstracted as a
`String → String` parameter (`PwEnv.sha`): no claim depends on the hash
internals, only on how the hex digest is used downstream. -/

/-- Python `round` (banker's rounding) idealised on `ℝ`, for
`round(100 - (entropy_bits / 80.0 * 100))`. -/
noncomputable def pyRoundR (x : ℝ) : ℤ :=
  let n := ⌊x⌋
  let f := x - n
  if f < 1/2 then n
  else if 1/2 < f then n + 1
  else if 2 ∣ n then n else n + 1

theorem pyRoundR_intCast (n : ℤ) : pyRoundR (n : ℝ) = n := by
  simp only [pyRoundR, Int.floor_intCast, sub_self]
  rw [if_pos (by norm_num)]

/-- Character-class pool size from `PasswordChecker._entropy_bits`
(lowercase 26, uppercase 26, digit 10, non-alphanumeric symbol 32). -/
def poolOf (pwd : String) : ℕ :=
  (if pwd.toList.any Char.isLower then 26 else 0) +
  (if pwd.toList.any Char.isUpper then 26 else 0) +
  (if pwd.toList.any Char.isDigit then 10 else 0) +
  (if pwd.toList.any (fun c => !c.isAlphanum) then 32 else 0)

/-- `PasswordChecker._entropy_bits`: `math.log2(pool) * len(pwd)`, `0.0`
when the pool is empty. -/
noncomputable def entropyBits (pwd : String) : ℝ :=
  if poolOf pwd = 0 then 0 else Real.logb 2 (poolOf pwd) * pwd.length

/-- `round(x, 2)` (two decimal places) as used on the reported
`entropy_bits` field. -/
noncomputable def pyRound2 (x : ℝ) : ℝ := (pyRoundR (x * 100) : ℝ) / 100

/-- Strength labels of `PasswordChecker.check_password`. -/
inductive Strength
  | very_weak
  | weak
  | reasonable
  | strong
deriving DecidableEq, Repr

/-- Order of strength labels (`very_weak < weak < reasonable < strong`). -/
def strengthRank : Strength → ℕ
  | .very_weak => 0
  | .weak => 1
  | .reasonable => 2
  | .strong => 3

/-- `password_checker.py` lines 152–162: common-password override, then
entropy thresholds 28 / 40 / 60. -/
noncomputable def strengthLabel (isCommon : Bool) (e : ℝ) : Strength :=
  if isCommon then .very_weak
  else if e < 28 then .very_weak
  else if e < 40 then .weak
  else if e < 60 then .reasonable
  else .strong

/-- Environment of one `check_password` call: the digest function, the two
preloaded sets (`common_set` entries lowercased, `breached_set` entries as
digests), the `ENABLE_HIBP` toggle, and the value `_hibp_k_anonymity`
resolves to when invoked (a count ≥ 0, or −1 on any error — the
`try/except` at the call site maps exceptions to −1 as well). -/
structure PwEnv where
  sha : String → String
  commonSet : List String
  breachedSet : List String
  enableHibp : Bool
  hibpCount : ℤ

/-- Findings record returned by `PasswordChecker.check_password`.  The
optional `zxcvbn` enrichment field is omitted: the package is optional,
the field never feeds the score, and no claim concerns it. -/
structure PwFindings where
  entropy_bits : ℝ
  pwned_count : ℤ
  compromised : Option Bool
  common_password : Bool
  strength : Strength
  risk_score : ℤ

/-- Lines 142–146 of `check_password`: resolve the breach count — prefer a
successful HIBP lookup, report −1 when HIBP is enabled but failed, else use
the local breached-digest set. -/
def resolvedPwnedCount (env : PwEnv) (pwd : String) : ℤ :=
  if env.enableHibp ∧ env.hibpCount ≠ -1 then env.hibpCount
  else if env.enableHibp ∧ env.hibpCount = -1 then -1
  else if env.breachedSet.contains (env.sha pwd) then 1 else 0

/-- Python `str.lower()` (ASCII case fold, character by character). -/
def pyLower (s : String) : String := String.mk (s.toList.map Char.toLower)

/-- Line 129: `pwd.lower() in self.common_set if pwd else False`. -/
def isCommonPwd (env : PwEnv) (pwd : String) : Bool :=
  if pwd = "" then false else env.commonSet.contains (pyLower pwd)

/-- Lines 164–176 of `check_password`: (risk_score, compromised) from the
resolved breach count, entropy and commonness. -/
noncomputable def pwRiskScore (pwned : ℤ) (e : ℝ) (isCommon : Bool) : ℤ × Option Bool :=
  if 0 < pwned then (100, some true)
  else if pwned = 0 then
    ((let base : ℤ := max 0 (min 100 (pyRoundR (100 - e / 80 * 100)))
      if isCommon then max base 85 else base), some false)
  else (70, none)

/-- `PasswordChecker.check_password` (lines 126–186).  The argument is
`Option String` because the route layer passes `body.get("password")`, and
the code normalises with `pwd = pwd or ""`. -/
noncomputable def check_password (env : PwEnv) (pwd0 : Option String) : PwFindings :=
  let pwd := pwd0.getD ""
  let pwned := resolvedPwnedCount env pwd
  let e := entropyBits pwd
  let c := isCommonPwd env pwd
  let rs := pwRiskScore pwned e c
  { entropy_bits := pyRound2 e, pwned_count := pwned, compromised := rs.2,
    common_password := c, strength := strengthLabel c e, risk_score := rs.1 }

@[simp] theorem check_password_pwned_count (env : PwEnv) (p : Option String) :
    (check_password env p).pwned_count = resolvedPwnedCount env (p.getD "") := rfl

@[simp] theorem check_password_common (env : PwEnv) (p : Option String) :
    (check_password env p).common_password = isCommonPwd env (p.getD "") := rfl

@[simp] theorem check_password_strength (env : PwEnv) (p : Option String) :
    (check_password env p).strength =
      strengthLabel (isCommonPwd env (p.getD "")) (entropyBits (p.getD "")) := rfl

@[simp] theorem check_password_risk_score (env : PwEnv) (p : Option String) :
    (check_password env p).risk_score =
      (pwRiskScore (resolvedPwnedCount env (p.getD "")) (entropyBits (p.getD ""))
        (isCommonPwd env (p.getD ""))).1 := rfl

@[simp] theorem check_password_compromised (env : PwEnv) (p : Option String) :
    (check_password env p).compromised =
      (pwRiskScore (resolvedPwnedCount env (p.getD "")) (entropyBits (p.getD ""))
        (isCommonPwd env (p.getD ""))).2 := rfl

/-- C1: the decision engine's action is exactly the policy table: for kind
url, action is alert iff score ≥ 50, log iff 20 ≤ score < 50, else ignore;
for kind password, alert iff compromised == true, log iff score > 60 and not
compromised, else ignore; for kind text, alert iff score ≥ 60 or label ==
malicious, log iff score ≥ 30 (and not alerting), else ignore; and the
action is a deterministic pure function of (kind, score, compromised/label). -/
theorem C1_decision_action_policy :
    (∀ s : ℤ, (urlAction s = .alert ↔ 50 ≤ s) ∧
      (urlAction s = .log ↔ 20 ≤ s ∧ s < 50) ∧
      (urlAction s = .ignore ↔ s < 20)) ∧
    (∀ (c : Option Bool) (s : ℤ), (passwordAction c s = .alert ↔ c = some true) ∧
      (passwordAction c s = .log ↔ 60 < s ∧ c ≠ some true) ∧
      (passwordAction c s = .ignore ↔ s ≤ 60 ∧ c ≠ some true)) ∧
    (∀ (s : ℤ) (l : Label), (textAction s l = .alert ↔ 60 ≤ s ∨ l = .malicious) ∧
      (textAction s l = .log ↔ 30 ≤ s ∧ ¬(60 ≤ s ∨ l = .malicious)) ∧
      (textAction s l = .ignore ↔ s < 30 ∧ ¬(60 ≤ s ∨ l = .malicious))) ∧
    ((∀ s₁ s₂ : ℤ, s₁ = s₂ → urlAction s₁ = urlAction s₂) ∧
     (∀ (c₁ c₂ : Option Bool) (s₁ s₂ : ℤ), c₁ = c₂ → s₁ = s₂ →
        passwordAction c₁ s₁ = passwordAction c₂ s₂) ∧
     (∀ (s₁ s₂ : ℤ) (l₁ l₂ : Label), s₁ = s₂ → l₁ = l₂ →
        textAction s₁ l₁ = textAction s₂ l₂)) := by
  refine ⟨fun s => ?_, fun c s => ?_, fun s l => ?_,
    fun s₁ s₂ h => by rw [h], fun c₁ c₂ s₁ s₂ hc hs => by rw [hc, hs],
    fun s₁ s₂ l₁ l₂ hs hl => by rw [hs, hl]⟩
  · unfold urlAction
    split_ifs with h1 h2 <;> refine ⟨?_, ?_, ?_⟩ <;> simp <;> omega
  · unfold passwordAction
    split_ifs with h1 h2 <;> refine ⟨?_, ?_, ?_⟩ <;> simp_all
  · unfold textAction
    split_ifs with h1 h2 <;> refine ⟨?_, ?_, ?_⟩ <;> simp_all

/-- Closed witness for C1: the policy theorem applied at concrete inputs,
discharging each kind's hypotheses. -/
theorem C1_decision_action_policy_witness :
    urlAction 14 = Action.ignore ∧ passwordAction (some true) 0 = Action.alert ∧
      passwordAction none 70 = Action.log ∧ textAction 51 Label.suspicious = Action.log := by
  obtain ⟨hu, hp, ht, hdet⟩ := C1_decision_action_policy
  refine ⟨(hu 14).2.2.mpr (by norm_num), (hp (some true) 0).1.mpr rfl,
    (hp none 70).2.1.mpr ⟨by norm_num, by simp⟩, (ht 51 Label.suspicious).2.1.mpr ?_⟩
  refine ⟨by norm_num, ?_⟩
  push_neg
  exact ⟨by norm_num, by simp⟩

/-- C3: for all vote tallies the URL analyzer computes
`risk_score = round(100 * (malicious*1.0 + suspicious*0.5) / total_votes)`
with `total_votes` floored at 1, clamped to [0,100]; the tallies
(malicious 2, suspicious 1, harmless 5, undetected 10) give total 18 and
risk_score 14, and the decision engine then produces action ignore (14 < 20). -/
theorem C3_url_risk_formula_and_fixture :
    (∀ m s h u : ℕ, urlRiskScore m s h u = urlRiskSpec m s h u) ∧
    urlRiskScore 2 1 5 10 = 14 ∧
    urlAction 14 = Action.ignore :=
  ⟨urlRiskScore_eq_spec, by norm_num [urlRiskScore, pyRound], by norm_num [urlAction]⟩

/-- C4: the fallback heuristic score equals the clamp to [0,100] of the sum
of the URL contribution (+15 first URL, +5 each additional, capped 40), +30
flat for any phishing-keyword match, +2 per exclamation mark capped at 10,
and +10 per matched sensitive-topic keyword (uncapped); the fallback label
is malicious iff score ≥ 70, suspicious iff 35 ≤ score < 70, else benign;
and empty or whitespace-only input yields benign with score exactly 0. -/
theorem C4_text_heuristic_score_and_label :
    (∀ t : String, simple_phish_score t = specHeuristicScore t) ∧
    (∀ (t : String) (fb : Option (Except Unit OaiReply)),
      (fb = none ∨ fb = some (.error ())) → pyBlank t = false →
        (analyze_text fb t).label = fallbackLabel (simple_phish_score t) ∧
        (analyze_text fb t).risk_score = (simple_phish_score t : ℤ) ∧
        ((analyze_text fb t).label = .malicious ↔ 70 ≤ simple_phish_score t) ∧
        ((analyze_text fb t).label = .suspicious ↔
          35 ≤ simple_phish_score t ∧ simple_phish_score t < 70) ∧
        ((analyze_text fb t).label = .benign ↔ simple_phish_score t < 35)) ∧
    (∀ (t : String) (fb : Option (Except Unit OaiReply)), pyBlank t = true →
        (analyze_text fb t).label = .benign ∧ (analyze_text fb t).risk_score = 0) := by
  refine ⟨fun t => ?_, fun t fb hfb hblank => ?_, fun t fb h => ?_⟩
  · by_cases ht : t = ""
    · subst ht; decide
    · simp only [simple_phish_score, specHeuristicScore, if_neg ht]
      split_ifs <;> omega
  · have hlab : (analyze_text fb t).label = fallbackLabel (simple_phish_score t) ∧
        (analyze_text fb t).risk_score = (simple_phish_score t : ℤ) := by
      rcases hfb with rfl | rfl <;> simp [analyze_text, hblank]
    refine ⟨hlab.1, hlab.2, ?_, ?_, ?_⟩ <;> rw [hlab.1] <;>
      unfold fallbackLabel <;> split_ifs <;> simp <;> omega
  · simp [analyze_text, h]

/-- Closed witness for C4: the theorem applied to the spec §8 text fixture
and to a whitespace-only input, with all hypotheses discharged concretely. -/
theorem C4_text_heuristic_score_and_label_witness :
    simple_phish_score "FREE MONEY!!! click here http://bit.ly/x" =
      specHeuristicScore "FREE MONEY!!! click here http://bit.ly/x" ∧
    (analyze_text none "FREE MONEY!!! click here http://bit.ly/x").label = Label.suspicious ∧
    (analyze_text none " ").label = Label.benign ∧
    (analyze_text none " ").risk_score = 0 := by
  obtain ⟨h1, h2, h3⟩ := C4_text_heuristic_score_and_label
  refine ⟨h1 _, ?_, (h3 " " none (by decide)).1, (h3 " " none (by decide)).2⟩
  exact (h2 "FREE MONEY!!! click here http://bit.ly/x" none (Or.inl rfl)
    (by decide)).2.2.2.1.mpr (by decide)

/-- C2: `check_password`'s risk score follows the three-case policy on the
resolved breach count: count > 0 ⇒ risk 100 and compromised, regardless of
entropy; count = 0 ⇒ risk = clamp(round(100 − entropy_bits/80·100), 0, 100),
floored at 85 for a common password; count = −1 ⇒ compromised unknown and
risk 70. -/
theorem C2_password_risk_policy (env : PwEnv) (pwd0 : Option String) :
    (0 < (check_password env pwd0).pwned_count →
        (check_password env pwd0).risk_score = 100 ∧
        (check_password env pwd0).compromised = some true) ∧
    ((check_password env pwd0).pwned_count = 0 →
        (check_password env pwd0).compromised = some false ∧
        (check_password env pwd0).risk_score =
          (if (check_password env pwd0).common_password then
            max (max 0 (min 100 (pyRoundR (100 - entropyBits (pwd0.getD "") / 80 * 100)))) 85
           else max 0 (min 100 (pyRoundR (100 - entropyBits (pwd0.getD "") / 80 * 100))))) ∧
    ((check_password env pwd0).pwned_count = -1 →
        (check_password env pwd0).compromised = none ∧
        (check_password env pwd0).risk_score = 70) := by
  simp only [check_password_pwned_count, check_password_risk_score,
    check_password_compromised, check_password_common]
  unfold pwRiskScore
  split_ifs with h1 h2 <;> refine ⟨?_, ?_, ?_⟩ <;> intro h <;> simp_all

/-- Closed witness for C2: the policy theorem applied to three concrete
environments realising each breach-count case (local breach hit; clean
lookup on the empty password; HIBP enabled but failing). -/
theorem C2_password_risk_policy_witness :
    (check_password ⟨fun s => s, [], ["pw"], false, 0⟩ (some "pw")).risk_score = 100 ∧
    (check_password ⟨fun s => s, [], ["pw"], false, 0⟩ (some "pw")).compromised = some true ∧
    (check_password ⟨fun s => s, [], [], false, 0⟩ (some "")).risk_score = 100 ∧
    (check_password ⟨fun s => s, [], [], false, 0⟩ (some "")).compromised = some false ∧
    (check_password ⟨fun s => s, [], [], true, -1⟩ (some "x")).risk_score = 70 ∧
    (check_password ⟨fun s => s, [], [], true, -1⟩ (some "x")).compromised = none := by
  have hA := C2_password_risk_policy ⟨fun s => s, [], ["pw"], false, 0⟩ (some "pw")
  have hB := C2_password_risk_policy ⟨fun s => s, [], [], false, 0⟩ (some "")
  have hC := C2_password_risk_policy ⟨fun s => s, [], [], true, -1⟩ (some "x")
  have hA1 : 0 < (check_password ⟨fun s => s, [], ["pw"], false, 0⟩ (some "pw")).pwned_count := by
    rw [check_password_pwned_count]; decide
  have hB1 : (check_password ⟨fun s => s, [], [], false, 0⟩ (some "")).pwned_count = 0 := by
    rw [check_password_pwned_count]; decide
  have hB2 : (check_password ⟨fun s => s, [], [], false, 0⟩ (some "")).common_password = false := by
    rw [check_password_common]; decide
  have hC1 : (check_password ⟨fun s => s, [], [], true, -1⟩ (some "x")).pwned_count = -1 := by
    rw [check_password_pwned_count]; decide
  have he : entropyBits "" = 0 := by
    simp [entropyBits, show poolOf "" = 0 from rfl]
  have hval : max 0 (min 100 (pyRoundR (100 - entropyBits "" / 80 * 100))) = 100 := by
    have h100 : (100 : ℝ) - entropyBits "" / 80 * 100 = ((100 : ℤ) : ℝ) := by
      rw [he]; norm_num
    rw [h100, pyRoundR_intCast]
    decide
  obtain ⟨hB2c, hB2r⟩ := hB.2.1 hB1
  refine ⟨(hA.1 hA1).1, (hA.1 hA1).2, ?_, hB2c, (hC.2.2 hC1).2, (hC.2.2 hC1).1⟩
  rw [hB2r, hB2, if_neg Bool.false_ne_true]
  simpa using hval

theorem logb_two_pow (n : ℕ) : Real.logb 2 ((2 : ℝ) ^ n) = n := by
  rw [Real.logb_pow, Real.logb_self_eq_one (by norm_num)]
  ring

theorem logb2_26_lt_6 : Real.logb 2 26 < 6 := by
  have h64 : Real.logb 2 ((2 : ℝ) ^ (6 : ℕ)) = 6 := by rw [logb_two_pow]; norm_num
  have h : Real.logb 2 26 < Real.logb 2 ((2 : ℝ) ^ (6 : ℕ)) := by
    apply Real.logb_lt_logb (by norm_num) (by norm_num)
    norm_num
  linarith

theorem logb2_26_ge_4 : (4 : ℝ) ≤ Real.logb 2 26 := by
  have h16 : Real.logb 2 ((2 : ℝ) ^ (4 : ℕ)) = 4 := by rw [logb_two_pow]; norm_num
  have h : Real.logb 2 ((2 : ℝ) ^ (4 : ℕ)) ≤ Real.logb 2 26 := by
    apply Real.logb_le_logb_of_le (by norm_num) (by norm_num)
    norm_num
  linarith

theorem logb2_26_nonneg : 0 ≤ Real.logb 2 26 :=
  Real.logb_nonneg (by norm_num) (by norm_num)

theorem entropyBits_of_pool (s : String) (n : ℕ) (h : poolOf s = n) (hn : n ≠ 0) :
    entropyBits s = Real.logb 2 n * s.length := by
  rw [entropyBits, h, if_neg hn]

/-- C10 counterexample: the claim "for any two passwords p1 p2,
entropy_bits(p1) ≤ entropy_bits(p2) implies strength(p1) ≤ strength(p2)"
is false on the code, because `check_password` forces `strength =
very_weak` for any password in the loaded common-password set regardless
of entropy (line 153).  With common set ["aaaaaaaaaaaaaaa"] (entropy
≈ 70.5 bits), the uncommon password "abcdefghij" (entropy ≈ 47 bits,
strength reasonable) has lower entropy but strictly higher strength. -/
theorem C10_strength_monotonicity_counterexample :
    entropyBits "abcdefghij" ≤ entropyBits "aaaaaaaaaaaaaaa" ∧
    strengthRank ((check_password ⟨fun s => s, ["aaaaaaaaaaaaaaa"], [], false, 0⟩
        (some "aaaaaaaaaaaaaaa")).strength) <
      strengthRank ((check_password ⟨fun s => s, ["aaaaaaaaaaaaaaa"], [], false, 0⟩
        (some "abcdefghij")).strength) := by
  have e1 : entropyBits "abcdefghij" = Real.logb 2 26 * 10 := by
    rw [entropyBits_of_pool "abcdefghij" 26 (by decide) (by decide)]
    norm_num [show String.length "abcdefghij" = 10 from by decide]
  have e2 : entropyBits "aaaaaaaaaaaaaaa" = Real.logb 2 26 * 15 := by
    rw [entropyBits_of_pool "aaaaaaaaaaaaaaa" 26 (by decide) (by decide)]
    norm_num [show String.length "aaaaaaaaaaaaaaa" = 15 from by decide]
  constructor
  · rw [e1, e2]
    nlinarith [logb2_26_nonneg]
  · rw [check_password_strength, check_password_strength]
    simp only [Option.getD_some]
    rw [show isCommonPwd ⟨fun s => s, ["aaaaaaaaaaaaaaa"], [], false, 0⟩ "aaaaaaaaaaaaaaa" = true
        from by decide,
      show isCommonPwd ⟨fun s => s, ["aaaaaaaaaaaaaaa"], [], false, 0⟩ "abcdefghij" = false
        from by decide]
    have h1 : strengthLabel true (entropyBits "aaaaaaaaaaaaaaa") = .very_weak := by
      rw [strengthLabel]
      simp
    have h2 : strengthLabel false (entropyBits "abcdefghij") = .reasonable := by
      have h4 := logb2_26_ge_4
      have h6 := logb2_26_lt_6
      rw [strengthLabel, if_neg Bool.false_ne_true, if_neg (by rw [e1]; push_neg; linarith),
        if_neg (by rw [e1]; push_neg; linarith), if_pos (by rw [e1]; linarith)]
    rw [h1, h2]
    decide

/-- C10 amended: for all passwords entropy_bits ≥ 0; and for passwords that
are NOT in the common-password set, the strength label is monotonically
non-decreasing in entropy_bits per the fixed thresholds 28, 40, 60.  (A
common password is forced very_weak regardless of entropy, so monotonicity
can fail across common/uncommon pairs — see the counterexample.) -/
theorem C10_entropy_nonneg_strength_monotone_noncommon :
    (∀ pwd : String, 0 ≤ entropyBits pwd) ∧
    (∀ (env : PwEnv) (p1 p2 : String),
      isCommonPwd env p1 = false → isCommonPwd env p2 = false →
      entropyBits p1 ≤ entropyBits p2 →
      strengthRank ((check_password env (some p1)).strength) ≤
        strengthRank ((check_password env (some p2)).strength)) := by
  constructor
  · intro pwd
    rw [entropyBits]
    split_ifs with h
    · exact le_refl 0
    · have hp : (1 : ℝ) ≤ (poolOf pwd : ℝ) := by
        exact_mod_cast Nat.one_le_iff_ne_zero.mpr h
      exact mul_nonneg (Real.logb_nonneg (by norm_num) hp) (by positivity)
  · intro env p1 p2 h1 h2 hle
    rw [check_password_strength, check_password_strength]
    simp only [Option.getD_some]
    rw [h1, h2]
    rw [strengthLabel, strengthLabel, if_neg Bool.false_ne_true, if_neg Bool.false_ne_true]
    split_ifs <;> simp [strengthRank] <;> linarith

/-- Closed witness for the amended C10: applied to two concrete uncommon
passwords of increasing entropy, and to a concrete password for the
non-negativity part. -/
theorem C10_entropy_nonneg_strength_monotone_noncommon_witness :
    0 ≤ entropyBits "x" ∧
    strengthRank ((check_password ⟨fun s => s, [], [], false, 0⟩ (some "a")).strength) ≤
      strengthRank ((check_password ⟨fun s => s, [], [], false, 0⟩ (some "ab")).strength) := by
  obtain ⟨h1, h2⟩ := C10_entropy_nonneg_strength_monotone_noncommon
  refine ⟨h1 "x", h2 _ "a" "ab" (by decide) (by decide) ?_⟩
  have ea : entropyBits "a" = Real.logb 2 26 * 1 := by
    rw [entropyBits_of_pool "a" 26 (by decide) (by decide)]
    norm_num [show String.length "a" = 1 from by decide]
  have eb : entropyBits "ab" = Real.logb 2 26 * 2 := by
    rw [entropyBits_of_pool "ab" 26 (by decide) (by decide)]
    norm_num [show String.length "ab" = 2 from by decide]
  rw [ea, eb]
  nlinarith [logb2_26_nonneg]

/-! ## Retry/backoff loop — `UrlAnalyzer._request` (`url_analyzer.py` 35–72)

The loop is modelled over an explicit trace of outcomes of the successive
`client.request` calls: either a response with a status code (and an
optional parsed `Retry-After` header) or a transient network error
(`httpx.RequestError` / `asyncio.TimeoutError`).  Sleep durations are
returned as a wait list so the backoff schedule can be stated. -/

/-- Outcome of one `client.request(...)` call. -/
inductive HttpOutcome
  | resp (status : ℕ) (retryAfter : Option ℚ)
  | netErr
deriving DecidableEq, Repr

/-- How `_request` ends: an `HTTPStatusError` carrying the status, the
re-raised transient network error, or exhaustion of the supplied trace
(the modelled loop would keep iterating — never reached in the theorems
below). -/
inductive ReqError
  | http (status : ℕ)
  | network
  | outOfTrace
deriving DecidableEq, Repr

/-- The `while True` body of `_request`: state is `(backoff, attempts)`;
returns the result together with the list of sleep durations.
On a 429: sleep `Retry-After` if present else `backoff`, set
`backoff = min(backoff*2, 16)`, `attempts += 1`, abandon via
`raise_for_status()` once `attempts > 6`.  On any other status,
`raise_for_status()` (HTTP 4xx/5xx errors propagate immediately — the
`except HTTPStatusError: raise` arm re-raises).  On a transient network
error: `attempts += 1`, re-raise once `attempts > 5`, else sleep
`min(backoff, 16)` and set `backoff *= 2` (uncapped — the cap is applied
at sleep time). -/
def requestLoop : List HttpOutcome → ℚ → ℕ → Except ReqError ℕ × List ℚ
  | [], _, _ => (.error .outOfTrace, [])
  | .resp status ra :: rest, backoff, attempts =>
    if status = 429 then
      let wait := ra.getD backoff
      let backoff2 := min (backoff * 2) 16
      let attempts2 := attempts + 1
      if attempts2 > 6 then (.error (.http 429), [wait])
      else
        let r := requestLoop rest backoff2 attempts2
        (r.1, wait :: r.2)
    else if 400 ≤ status ∧ status < 600 then (.error (.http status), [])
    else (.ok status, [])
  | .netErr :: rest, backoff, attempts =>
    let attempts2 := attempts + 1
    if attempts2 > 5 then (.error .network, [])
    else
      let wait := min backoff 16
      let r := requestLoop rest (backoff * 2) attempts2
      (r.1, wait :: r.2)

/-- `_request` entry: `backoff = 1.0`, `attempts = 0`. -/
def request (trace : List HttpOutcome) : Except ReqError ℕ × List ℚ :=
  requestLoop trace 1 0

/-- C7 counterexample: the claim "the call is abandoned after 6 rate-limit
retries or 5 transient-network retries" is false as a universal statement,
because `_request` keeps ONE shared `attempts` counter for both failure
kinds.  On a trace with only 3 rate-limit responses and 3 transient errors
followed by a success — under the claimed per-kind budgets the call would
reach the success — the code abandons at the 3rd transient error (shared
counter reaches 6 > 5) after only 3 rate-limit retries and 2 transient
retries. -/
theorem C7_retry_budget_counterexample :
    request [.resp 429 none, .resp 429 none, .resp 429 none,
      .netErr, .netErr, .netErr, .resp 200 none] = (.error .network, [1, 2, 4, 8, 16]) ∧
    List.count (HttpOutcome.resp 429 none) [.resp 429 none, .resp 429 none, .resp 429 none,
      .netErr, .netErr, .netErr, .resp 200 none] = 3 ∧
    List.count HttpOutcome.netErr [.resp 429 none, .resp 429 none, .resp 429 none,
      .netErr, .netErr, .netErr, .resp 200 none] = 3 := by
  refine ⟨by norm_num [request, requestLoop, min_def], by decide, by decide⟩

/-- C7 amended: every outbound call retries with waits 1s, 2s, 4s, …
capped at 16s; on HTTP 429 a present `Retry-After` header is honored as
the wait; a single shared attempt counter abandons the call — surfacing
the underlying error — when it exceeds 6 at a rate-limit response or 5 at
a transient error (so a homogeneous run of 429s is abandoned after 6
rate-limit retries, and a homogeneous run of transient errors after 5
retries); and a non-429 4xx HTTP error propagates immediately without any
retry. -/
theorem C7_retry_backoff_shared_counter :
    (∀ (s : ℕ) (ra : Option ℚ) (rest : List HttpOutcome),
      400 ≤ s → s < 500 → s ≠ 429 →
        request (.resp s ra :: rest) = (.error (.http s), [])) ∧
    (∀ (q : ℚ) (rest : List HttpOutcome),
      (request (.resp 429 (some q) :: rest)).2.head? = some q) ∧
    (∀ n ≤ 6, request (List.replicate n (.resp 429 none) ++ [.resp 200 none]) =
        (.ok 200, List.take n [1, 2, 4, 8, 16, 16])) ∧
    request (List.replicate 7 (.resp 429 none)) =
      (.error (.http 429), [1, 2, 4, 8, 16, 16, 16]) ∧
    (∀ n ≤ 5, request (List.replicate n .netErr ++ [.resp 200 none]) =
        (.ok 200, List.take n [1, 2, 4, 8, 16])) ∧
    request (List.replicate 6 .netErr) = (.error .network, [1, 2, 4, 8, 16]) := by
  refine ⟨?_, ?_, ?_, ?_, ?_, ?_⟩
  · intro s ra rest h1 h2 h3
    simp only [request, requestLoop]
    rw [if_neg h3, if_pos ⟨h1, by omega⟩]
  · intro q rest
    simp [request, requestLoop]
  · intro n hn
    interval_cases n <;> norm_num [request, requestLoop, List.replicate, min_def]
  · norm_num [request, requestLoop, List.replicate, min_def]
  · intro n hn
    interval_cases n <;> norm_num [request, requestLoop, List.replicate, min_def]
  · norm_num [request, requestLoop, List.replicate, min_def]

/-- Closed witness for the amended C7: each conjunct applied at a concrete
trace, discharging the status-range and retry-count hypotheses. -/
theorem C7_retry_backoff_shared_counter_witness :
    request [.resp 404 none] = (.error (.http 404), []) ∧
    (request [.resp 429 (some (5/2)), .resp 200 none]).2.head? = some ((5 : ℚ)/2) ∧
    request (List.replicate 2 (.resp 429 none) ++ [.resp 200 none]) = (.ok 200, [1, 2]) ∧
    request (List.replicate 2 .netErr ++ [.resp 200 none]) = (.ok 200, [1, 2]) := by
  obtain ⟨hA, hB, hC, hD, hE, hF⟩ := C7_retry_backoff_shared_counter
  refine ⟨hA 404 none [] (by norm_num) (by norm_num) (by norm_num), hB (5/2) _, ?_, ?_⟩
  · have h := hC 2 (by norm_num)
    simpa using h
  · have h := hE 2 (by norm_num)
    simpa using h

/-! ## `UrlAnalyzer.scan_url` and `AgentDecision.route_and_decide`

`scan_url` is modelled at the level of its three outbound sub-calls
(`_submit_url`, `_get_analysis`, `_get_url_object`): the environment
supplies each call's outcome (a parsed response or the error `_request`
surfaced).  VirusTotal responses are reduced to the fields the code reads:
`data.id`, `data.attributes.status`, `data.attributes.last_analysis_stats`
(missing pieces = `none`, matching the `.get(..., {})` defaults).  The
per-engine results map only feeds the cosmetic `engines`/`engines_count`
outputs, which no claim concerns. -/

/-- `last_analysis_stats` vote tallies. -/
structure VTStats where
  malicious : ℕ
  suspicious : ℕ
  harmless : ℕ
  undetected : ℕ
deriving DecidableEq, Repr

/-- A VirusTotal response, reduced to the fields `scan_url` reads. -/
structure VTResponse where
  dataId : Option String
  status : Option String
  lastStats : Option VTStats
deriving DecidableEq, Repr

/-- Outcomes of the three outbound calls of one `scan_url` invocation. -/
structure UrlEnv where
  submit : Except ReqError VTResponse
  polls : ℕ → Except ReqError VTResponse
  urlObject : Except ReqError VTResponse

/-- Findings record returned by `scan_url` (raw echo fields omitted). -/
structure UrlFindings where
  url : String
  malicious_votes : ℕ
  suspicious_votes : ℕ
  harmless_votes : ℕ
  undetected : ℕ
  risk_score : ℤ
deriving DecidableEq, Repr

/-- `scan_url` lines 112–118: poll `_get_analysis` up to `max_polls` times,
keeping the last response, stopping early on status "completed"; an
exception from any poll propagates. -/
def pollLoop (env : UrlEnv) : ℕ → ℕ → Option VTResponse → Except ReqError (Option VTResponse)
  | 0, _, acc => .ok acc
  | fuel + 1, i, _ =>
    match env.polls i with
    | .error e => .error e
    | .ok a => if a.status = some "completed" then .ok (some a) else pollLoop env fuel (i + 1) (some a)

/-- `UrlAnalyzer.scan_url` (lines 90–161): submit (errors propagate), poll
when an analysis id was returned (errors propagate), then best-effort
`_get_url_object` falling back to `analysis or submit`, extract the stats
with 0 defaults, and compute the normalised risk score. -/
def scan_url (env : UrlEnv) (url : String) (maxPolls : ℕ) : Except ReqError UrlFindings :=
  match env.submit with
  | .error e => .error e
  | .ok submit =>
    match (match submit.dataId with
           | some _ => pollLoop env maxPolls 0 none
           | none => .ok none) with
    | .error e => .error e
    | .ok analysis =>
      let urlObj : VTResponse :=
        match env.urlObject with
        | .ok o => o
        | .error _ => analysis.getD submit
      let stats := urlObj.lastStats.getD ⟨0, 0, 0, 0⟩
      .ok { url := url,
            malicious_votes := stats.malicious, suspicious_votes := stats.suspicious,
            harmless_votes := stats.harmless, undetected := stats.undetected,
            risk_score := urlRiskScore stats.malicious stats.suspicious
              stats.harmless stats.undetected }

/-- The tagged input dict `body` as read by `route_and_decide`
(`body.get("type")`, `body.get("url")`, `body.get("password")`,
`body.get("text")`). -/
structure Body where
  type : Option String
  url : Option String
  password : Option String
  text : Option String
deriving DecidableEq, Repr

/-- The kind-specific findings embedded in a routed decision dict
(`"analyzer": result`). -/
inductive AnalyzerFindings
  | url (f : UrlFindings)
  | password (f : PwFindings)
  | text (f : TextFindings)

/-- The decision dict built by `route_and_decide` for a recognised kind.
Exact f-string formatting of `reason` is simplified to structured pieces;
§4.4 makes the reason wording a diagnostic, not a contract. -/
structure Decision where
  kind : String
  input : Option String
  analyzer : AnalyzerFindings
  combined_score : ℤ
  action : Action
  reason : String

/-- Result of `route_and_decide`: either a decision dict, or the distinct
error dict `{"error": "unknown_type", "body": body}` (which carries no
action). -/
inductive RouteResult
  | decision (d : Decision)
  | unknownType (body : Body)

/-- Unhandled exceptions that can escape `route_and_decide`: an error
surfaced by the URL analyzer's `_request`, or the `AttributeError` from
`None.encode()` when a url-typed body lacks the "url" key. -/
inductive Fault
  | req (e : ReqError)
  | noneUrl
deriving DecidableEq, Repr

def labelStr : Label → String
  | .malicious => "malicious"
  | .suspicious => "suspicious"
  | .benign => "benign"

/-- `AgentDecision.route_and_decide` (`agent_decision.py` lines 12–58),
with each analyzer's external world passed explicitly (`uenv`, `maxPolls`,
`penv`, `primary`). -/
noncomputable def route_and_decide (uenv : UrlEnv) (maxPolls : ℕ) (penv : PwEnv)
    (primary : Option (Except Unit OaiReply)) (body : Body) : Except Fault RouteResult :=
  if body.type = some "url" then
    match body.url with
    | none => .error .noneUrl
    | some u =>
      match scan_url uenv u maxPolls with
      | .error e => .error (.req e)
      | .ok r =>
        let d : Decision :=
          { kind := "url", input := some u, analyzer := AnalyzerFindings.url r,
            combined_score := r.risk_score, action := urlAction r.risk_score,
            reason := "URL risk_score " ++ toString r.risk_score }
        .ok (.decision d)
  else if body.type = some "password" then
    let r := check_password penv body.password
    let d : Decision :=
      { kind := "password", input := none, analyzer := AnalyzerFindings.password r,
        combined_score := r.risk_score,
        action := passwordAction r.compromised r.risk_score,
        reason := "Password compromised: " ++
          (match r.compromised with
           | some true => "True"
           | some false => "False"
           | none => "None") }
    .ok (.decision d)
  else if body.type = some "text" then
    let r := analyze_text primary (body.text.getD "")
    let d : Decision :=
      { kind := "text", input := none, analyzer := AnalyzerFindings.text r,
        combined_score := r.risk_score, action := textAction r.risk_score r.label,
        reason := "Text label " ++ labelStr r.label ++ ": " ++ r.reason }
    .ok (.decision d)
  else
    .ok (.unknownType body)

theorem urlRiskScore_bounds (m s h u : ℕ) :
    0 ≤ urlRiskScore m s h u ∧ urlRiskScore m s h u ≤ 100 := by
  simp only [urlRiskScore]
  omega

theorem pwRiskScore_bounds (p : ℤ) (e : ℝ) (c : Bool) :
    0 ≤ (pwRiskScore p e c).1 ∧ (pwRiskScore p e c).1 ≤ 100 := by
  simp only [pwRiskScore]
  split_ifs <;> simp

theorem simple_phish_score_le_100 (t : String) : simple_phish_score t ≤ 100 := by
  simp only [simple_phish_score]
  split_ifs <;> omega

/-- C5: every Findings value produced by any analyzer — URL, password or
text, on the primary path, the fallback heuristic path or a short-circuit —
carries a risk_score in [0,100]. -/
theorem C5_findings_risk_score_range :
    (∀ (env : UrlEnv) (maxPolls : ℕ) (u : String) (r : UrlFindings),
      scan_url env u maxPolls = .ok r → 0 ≤ r.risk_score ∧ r.risk_score ≤ 100) ∧
    (∀ (env : PwEnv) (p : Option String),
      0 ≤ (check_password env p).risk_score ∧ (check_password env p).risk_score ≤ 100) ∧
    (∀ (primary : Option (Except Unit OaiReply)) (t : String),
      0 ≤ (analyze_text primary t).risk_score ∧ (analyze_text primary t).risk_score ≤ 100) := by
  refine ⟨?_, ?_, ?_⟩
  · intro env mp u r h
    unfold scan_url at h
    split at h
    · exact absurd h (by simp)
    · split at h
      · exact absurd h (by simp)
      · injection h with h2
        subst h2
        simpa using urlRiskScore_bounds _ _ _ _
  · intro env p
    rw [check_password_risk_score]
    exact pwRiskScore_bounds _ _ _
  · intro primary t
    unfold analyze_text
    split_ifs with hblank
    · simp
    · have hle := simple_phish_score_le_100 t
      match primary with
      | none => simpa using hle
      | some (.error e) => simpa using hle
      | some (.ok oa) => simp

/-- Closed witness for C5: the URL conjunct applied to a concrete
environment whose canonical URL object carries the spec §8 tallies, the
hypothesis discharged by evaluation. -/
theorem C5_findings_risk_score_range_witness :
    0 ≤ (UrlFindings.mk "http://x" 2 1 5 10 (urlRiskScore 2 1 5 10)).risk_score ∧
    (UrlFindings.mk "http://x" 2 1 5 10 (urlRiskScore 2 1 5 10)).risk_score ≤ 100 := by
  have henv : scan_url ⟨.ok ⟨none, none, none⟩, fun _ => .error .network,
      .ok ⟨none, some "completed", some ⟨2, 1, 5, 10⟩⟩⟩ "http://x" 12 =
      .ok (UrlFindings.mk "http://x" 2 1 5 10 (urlRiskScore 2 1 5 10)) := rfl
  exact C5_findings_risk_score_range.1 _ 12 "http://x" _ henv

/-- C6 counterexample: the decision core CAN raise an unhandled fault for a
well-formed url-typed input — `scan_url`'s submit step is not guarded in
`route_and_decide`, so an error surfaced by `_request` (here: transient
network failure after retries exhausted) propagates to the caller. -/
theorem C6_url_unhandled_fault_counterexample :
    route_and_decide ⟨.error .network, fun _ => .error .network, .error .network⟩ 12
      ⟨fun s => s, [], [], false, 0⟩ none ⟨some "url", some "http://x", none, none⟩ =
      .error (.req .network) := rfl

/-- C6 amended: `route_and_decide` never raises for well-formed password-
or text-typed inputs (it always returns a Decision), and the conservative
worst case is the unknown-breach qualifier: HIBP enabled but failing gives
risk_score 70 with compromised = None.  For url-typed inputs, hard analyzer
failures (submit/poll errors surfaced by `_request`) propagate to the
caller — see the counterexample. -/
theorem C6_no_unhandled_fault_password_text :
    (∀ (uenv : UrlEnv) (maxPolls : ℕ) (penv : PwEnv)
        (primary : Option (Except Unit OaiReply)) (body : Body),
      body.type = some "password" ∨ body.type = some "text" →
      ∃ d, route_and_decide uenv maxPolls penv primary body = .ok (.decision d)) ∧
    (∀ (penv : PwEnv) (p : Option String), penv.enableHibp = true → penv.hibpCount = -1 →
      (check_password penv p).risk_score = 70 ∧ (check_password penv p).compromised = none) := by
  constructor
  · intro uenv mp penv primary body h
    rcases h with h | h
    · have h1 : ¬ body.type = some "url" := by rw [h]; simp
      simp only [route_and_decide, if_neg h1, if_pos h]
      exact ⟨_, rfl⟩
    · have h1 : ¬ body.type = some "url" := by rw [h]; simp
      have h2 : ¬ body.type = some "password" := by rw [h]; simp
      simp only [route_and_decide, if_neg h1, if_neg h2, if_pos h]
      exact ⟨_, rfl⟩
  · intro penv p h1 h2
    rw [check_password_risk_score, check_password_compromised]
    have hres : resolvedPwnedCount penv (p.getD "") = -1 := by
      simp [resolvedPwnedCount, h1, h2]
    rw [hres]
    simp [pwRiskScore]

/-- Closed witness for the amended C6: applied to concrete password- and
text-typed bodies (with every analyzer backend failing) and to a concrete
HIBP-failing environment. -/
theorem C6_no_unhandled_fault_password_text_witness :
    (∃ d, route_and_decide ⟨.error .network, fun _ => .error .network, .error .network⟩ 12
        ⟨fun s => s, [], [], false, 0⟩ none ⟨some "password", none, some "pw", none⟩ =
        .ok (.decision d)) ∧
    (∃ d, route_and_decide ⟨.error .network, fun _ => .error .network, .error .network⟩ 12
        ⟨fun s => s, [], [], false, 0⟩ none ⟨some "text", none, none, some "hi"⟩ =
        .ok (.decision d)) ∧
    (check_password ⟨fun s => s, [], [], true, -1⟩ (some "pw")).risk_score = 70 := by
  obtain ⟨h1, h2⟩ := C6_no_unhandled_fault_password_text
  exact ⟨h1 _ 12 _ none _ (Or.inl rfl), h1 _ 12 _ none _ (Or.inr rfl),
    (h2 ⟨fun s => s, [], [], true, -1⟩ (some "pw") rfl rfl).1⟩

/-- C8: for every input whose type is not url, password or text, routing
returns the distinct `unknown_type` error dict, which is not a Decision,
carries no action, and in particular differs from any Decision whose
action is ignore. -/
theorem C8_unknown_type_distinct :
    (∀ (uenv : UrlEnv) (maxPolls : ℕ) (penv : PwEnv)
        (primary : Option (Except Unit OaiReply)) (body : Body),
      (∀ t, body.type = some t → t ≠ "url" ∧ t ≠ "password" ∧ t ≠ "text") →
      route_and_decide uenv maxPolls penv primary body = .ok (.unknownType body)) ∧
    (∀ (b : Body) (d : Decision), RouteResult.unknownType b ≠ RouteResult.decision d) ∧
    (∀ (b : Body) (d : Decision), d.action = Action.ignore →
      RouteResult.unknownType b ≠ RouteResult.decision d) := by
  refine ⟨?_, fun b d h => RouteResult.noConfusion h,
    fun b d _ h => RouteResult.noConfusion h⟩
  intro uenv mp penv primary body hb
  have h1 : ¬ body.type = some "url" := fun h => (hb _ h).1 rfl
  have h2 : ¬ body.type = some "password" := fun h => (hb _ h).2.1 rfl
  have h3 : ¬ body.type = some "text" := fun h => (hb _ h).2.2 rfl
  simp only [route_and_decide, if_neg h1, if_neg h2, if_neg h3]

/-- Closed witness for C8: the spec §8 scenario, an input of kind "image",
with the kind-exclusion hypothesis discharged concretely. -/
theorem C8_unknown_type_distinct_witness :
    route_and_decide ⟨.error .network, fun _ => .error .network, .error .network⟩ 12
      ⟨fun s => s, [], [], false, 0⟩ none ⟨some "image", none, none, none⟩ =
      .ok (.unknownType ⟨some "image", none, none, none⟩) ∧
    RouteResult.unknownType ⟨some "image", none, none, none⟩ ≠
      RouteResult.decision ⟨"text", none, AnalyzerFindings.text ⟨.benign, "r", 0, [], 0⟩,
        0, Action.ignore, "r"⟩ := by
  obtain ⟨h1, h2, h3⟩ := C8_unknown_type_distinct
  refine ⟨h1 _ 12 _ none _ ?_, h3 _ _ rfl⟩
  intro t ht
  injection ht with ht2
  subst ht2
  exact ⟨by decide, by decide, by decide⟩

/-! ## HIBP k-anonymity — `PasswordChecker._hibp_k_anonymity` (lines 60–97)

The network and the module-level response cache are passed explicitly.
Writing the fresh body back into `_HIBP_CACHE` is a state update that does
not affect the returned count of the current call and is not modelled. -/

/-- Python `str.upper()` (ASCII case fold, character by character). -/
def pyUpper (s : String) : String := String.mk (s.toList.map Char.toUpper)

/-- Python `str.strip()` with no argument: drop leading and trailing
whitespace. -/
def pyStrip (s : String) : String :=
  String.mk (((s.toList.dropWhile pySpace).reverse.dropWhile pySpace).reverse)

/-- Python `str.splitlines()` for the ASCII terminators CRLF, CR, LF
(no trailing empty line). -/
def splitlinesAux : List Char → List Char → List (List Char)
  | [], acc => if acc.isEmpty then [] else [acc]
  | '\r' :: '\n' :: rest, acc => acc :: splitlinesAux rest []
  | '\r' :: rest, acc => acc :: splitlinesAux rest []
  | '\n' :: rest, acc => acc :: splitlinesAux rest []
  | c :: rest, acc => splitlinesAux rest (acc ++ [c])

def pySplitlines (s : String) : List String := (splitlinesAux s.toList []).map String.mk

/-- Python `line.split(":")`. -/
def splitOnColonAux : List Char → List Char → List (List Char)
  | [], acc => [acc]
  | ':' :: rest, acc => acc :: splitOnColonAux rest []
  | c :: rest, acc => splitOnColonAux rest (acc ++ [c])

def splitOnColon (s : String) : List String := (splitOnColonAux s.toList []).map String.mk

def parseNatDigits (cs : List Char) : Option ℕ :=
  if cs = [] then none
  else if cs.all Char.isDigit then
    some (cs.foldl (fun a c => a * 10 + (c.toNat - 48)) 0)
  else none

/-- Python `int(s)` on an already-stripped string: optional sign then
decimal digits, `none` modelling a raised `ValueError`. -/
def pyIntOfString (s : String) : Option ℤ :=
  match s.toList with
  | '-' :: rest => (parseNatDigits rest).map fun n => -(n : ℤ)
  | '+' :: rest => (parseNatDigits rest).map fun n => (n : ℤ)
  | cs => (parseNatDigits cs).map fun n => (n : ℤ)

/-- Lines 84–97: scan the range-response lines for the local digest
suffix; malformed lines are skipped, an unparseable count on the matching
line yields −1, no match yields 0. -/
def hibpMatch (suffix : String) : List String → ℤ
  | [] => 0
  | line :: rest =>
    if line = "" then hibpMatch suffix rest
    else
      match splitOnColon line with
      | [a, b] =>
        if pyUpper (pyStrip a) = suffix then
          match pyIntOfString (pyStrip b) with
          | some v => v
          | none => -1
        else hibpMatch suffix rest
      | _ => hibpMatch suffix rest

/-- External world of one `_hibp_k_anonymity` call: the module cache
(prefix ↦ timestamp and body), the clock, the TTL, and the network
(prefix ↦ HTTP status and body, `none` = raised exception). -/
structure HibpEnv where
  cache : String → Option (ℚ × String)
  now : ℚ
  ttl : ℚ
  net : String → Option (ℕ × String)

/-- Lines 73–82: one `requests.get` on the range endpoint for a prefix:
exception or non-200 status give up (the caller reports −1). -/
def hibpFetch (env : HibpEnv) (pfx : String) : Option String :=
  match env.net pfx with
  | none => none
  | some (status, body) => if status ≠ 200 then none else some body

/-- Lines 68–82: resolve the response body for a prefix — a fresh cache
entry, else the network. -/
def hibpResolveBody (env : HibpEnv) (pfx : String) : Option String :=
  match env.cache pfx with
  | some (ts, body) => if env.now - ts < env.ttl then some body else hibpFetch env pfx
  | none => hibpFetch env pfx

/-- `sha1[:5]` — everything the call discloses to the remote service. -/
def hibpQueryUrl (sha1 : String) : String :=
  "https://api.pwnedpasswords.com/range/" ++ String.mk (sha1.toList.take 5)

/-- `PasswordChecker._hibp_k_anonymity`. -/
def hibp_k_anonymity (env : HibpEnv) (sha1 : String) : ℤ :=
  let pfx := String.mk (sha1.toList.take 5)
  let suffix := pyUpper (String.mk (sha1.toList.drop 5))
  match hibpResolveBody env pfx with
  | none => -1
  | some body => hibpMatch suffix (pySplitlines body)

/-- C9: the remote breach check discloses only the first 5 hex characters
of the digest — the request URL, and everything exchanged with cache and
network, is a function of the 5-character prefix alone (digests sharing a
prefix are indistinguishable to the remote service) — and the full digest
is matched locally: the result is exactly the local scan of the returned
body for the digest's suffix. -/
theorem C9_k_anonymity_prefix_only :
    (∀ s1 s2 : String, s1.toList.take 5 = s2.toList.take 5 →
      hibpQueryUrl s1 = hibpQueryUrl s2) ∧
    (∀ (env : HibpEnv) (s1 s2 : String), s1.toList.take 5 = s2.toList.take 5 →
      hibpResolveBody env (String.mk (s1.toList.take 5)) =
        hibpResolveBody env (String.mk (s2.toList.take 5))) ∧
    (∀ (env : HibpEnv) (sha1 body : String),
      hibpResolveBody env (String.mk (sha1.toList.take 5)) = some body →
      hibp_k_anonymity env sha1 =
        hibpMatch (pyUpper (String.mk (sha1.toList.drop 5))) (pySplitlines body)) ∧
    (∀ (env : HibpEnv) (sha1 : String),
      hibpResolveBody env (String.mk (sha1.toList.take 5)) = none →
      hibp_k_anonymity env sha1 = -1) := by
  refine ⟨fun s1 s2 h => ?_, fun env s1 s2 h => by rw [h], fun env sha1 body h => ?_,
    fun env sha1 h => ?_⟩
  · unfold hibpQueryUrl
    rw [h]
  · simp only [hibp_k_anonymity]
    rw [h]
  · simp only [hibp_k_anonymity]
    rw [h]

/-- Closed witness for C9: two digests sharing the prefix ABCDE produce
the same request URL; and on a concrete environment returning the range
body "FGH:5", the digest ABCDEFGH resolves to the locally matched count 5. -/
theorem C9_k_anonymity_prefix_only_witness :
    hibpQueryUrl "ABCDEFGH" = hibpQueryUrl "ABCDEXYZ" ∧
    hibp_k_anonymity
        ⟨fun _ => none, 0, 3600, fun p => if p = "ABCDE" then some (200, "FGH:5") else none⟩
        "ABCDEFGH" =
      hibpMatch (pyUpper (String.mk ("ABCDEFGH".toList.drop 5))) (pySplitlines "FGH:5") ∧
    hibpMatch (pyUpper (String.mk ("ABCDEFGH".toList.drop 5))) (pySplitlines "FGH:5") = 5 := by
  obtain ⟨h1, h2, h3, h4⟩ := C9_k_anonymity_prefix_only
  refine ⟨h1 "ABCDEFGH" "ABCDEXYZ" (by decide), h3 _ "ABCDEFGH" "FGH:5" ?_, by decide⟩
  decide

end CyberSec
